import Mathlib

/-!
Shallow embedding of the `nl` callback library (`src/nl/listener.hpp`,
`src/nl/notifier.hpp`, `src/nl/trackable.hpp`) and theorems about its
connect / broadcast / disconnect / lifetime-tracking protocol.

Pointers are modelled by numeric identities (`Nat`), a `std::list` node by a
stable numeric node id (an iterator is a pointer to a node), and the heap of
all notifiers and trackable objects by total maps from identities to states.
Operations whose C++ preconditions can be violated (erasing an invalid
iterator, `std::list::erase(end())`) return `Option`, with `none` marking
undefined behaviour.
-/

set_option autoImplicit false

namespace NL

/-- Object identity: the address of a target object (the `void*` handle stored
in a listener / the `const trackable*` stored in a callback). -/
abbrev ObjId := Nat

/-- Notifier identity: the address of a `notifier` object (`this`, or the
`void* notifier` field of a trackable callback). -/
abbrev NotifierId := Nat

/-- One `nl::listener`: the stub function pointer (identified by a number),
the bound object pointer `m_object` (`none` models `nullptr`, the case of a
free-function listener), and the `m_trackable` flag. -/
structure Listener where
  stub : Nat
  object : Option ObjId
  trackable : Bool
deriving DecidableEq, Repr

/-- One `nl::trackable::callback`: the stored `{function, notifier, object}`
triple. In this code base the `function` member is always the single thunk
`notifier::disconnect_trackable` (which performs `notifier->disconnect(object)`),
so the triple is represented by the two identities. -/
structure TrackCallback where
  notifier : NotifierId
  object : ObjId
deriving DecidableEq, Repr

/-- The listener storage of one `nl::notifier`: a `std::list` of listeners.
Each node carries a stable id (iterators are node pointers, unaffected by
operations on other nodes); `nextNode` supplies fresh ids for `push_front`.
The head of the list is the front of the `std::list`. -/
structure NotifierState where
  listeners : List (Nat × Listener)
  nextNode : Nat
deriving DecidableEq, Repr

/-- One `nl::notifier::connection`: the back pointer `m_notifier` (`none` once
the connection is spent) and the iterator `m_listener` (a node id). -/
structure Connection where
  notifier : Option NotifierId
  listener : Nat
deriving DecidableEq, Repr

/-- The heap of the whole protocol: every notifier's listener list and every
trackable object's `m_callbacks` registration list (front = most recent). -/
structure World where
  notifiers : NotifierId → NotifierState
  objects : ObjId → List TrackCallback

/-- `trackable::track`: `m_callbacks.push_front({func, notifier, this})`. -/
def track (nid : NotifierId) (oid : ObjId) (cbs : List TrackCallback) :
    List TrackCallback :=
  ⟨nid, oid⟩ :: cbs

/-- `trackable::untrack`: `m_callbacks.remove_if(cllbck.notifier == notifier)`.
`std::forward_list::remove_if` removes every element satisfying the predicate,
i.e. keeps exactly those whose notifier identity differs. -/
def untrack (nid : NotifierId) (cbs : List TrackCallback) : List TrackCallback :=
  cbs.filter (fun cb => cb.notifier != nid)

/-- `notifier::connect`: if the listener `is_trackable()`, first call
`track(this, &disconnect_trackable)` on its target object, then
`m_listeners.push_front(lstnr)`, and return `connection(this, m_listeners.begin())`.
(A trackable listener with a null object would dereference `nullptr` in the
source; it is unreachable through the `listener::make` constructors and is
modelled as performing no track.) -/
def World.connect (w : World) (nid : NotifierId) (l : Listener) :
    World × Connection :=
  let objs : ObjId → List TrackCallback :=
    match l.trackable, l.object with
    | true, some oid => fun o => if o = oid then track nid oid (w.objects o) else w.objects o
    | _, _ => w.objects
  let ns := w.notifiers nid
  (⟨fun m => if m = nid then ⟨(ns.nextNode, l) :: ns.listeners, ns.nextNode + 1⟩
             else w.notifiers m,
    objs⟩,
   ⟨some nid, ns.nextNode⟩)

/-- A run of `connect` calls on one notifier, in the given order, with the
returned connection handles dropped. -/
def connectAll (nid : NotifierId) (ls : List Listener) (w : World) : World :=
  ls.foldl (fun w l => (World.connect w nid l).1) w

/-- `notifier::operator()`: `for(const auto& lstnr: m_listeners) lstnr(params...);`.
The observable invocation trace: each listener value in sequence order, paired
with the broadcast arguments it is invoked with. -/
def broadcast {A : Type} (args : A) (ns : NotifierState) : List (Listener × A) :=
  ns.listeners.map (fun p => (p.2, args))

/-- The broadcast loop under C++ exception semantics. `run` gives each
listener's behaviour on the broadcast arguments: it either returns normally or
throws. The loop invokes the listeners in sequence order; a thrown exception
propagates out of the loop at once, so the remaining listeners are not
invoked. Returns the trace of invoked listeners and the propagated error. -/
def broadcastRun {A E : Type} (run : Listener → A → Except E Unit) (args : A) :
    List (Nat × Listener) → List Listener × Option E
  | [] => ([], none)
  | p :: rest =>
    match run p.2 args with
    | Except.error e => ([p.2], some e)
    | Except.ok _ =>
      let r := broadcastRun run args rest
      (p.2 :: r.1, r.2)

/-- `notifier::operator()` (equivalently `notify`) with possibly-throwing
listeners, as a function of the notifier's state. -/
def notifyRun {A E : Type} (run : Listener → A → Except E Unit) (args : A)
    (ns : NotifierState) : List Listener × Option E :=
  broadcastRun run args ns.listeners

/-- `notifier::disconnect(const TObj* obj)`:
`m_listeners.erase(std::remove_if(begin, end, lstnr.get_object() == obj))`.
`std::remove_if` copies the kept values forward into the nodes, leaves the
nodes past the kept ones holding their original values (this value type's
move is a copy), and returns an iterator at position `#kept`; node identities
do not move. `std::list::erase` is then called with that SINGLE iterator (not
the two-iterator range form), erasing exactly one node — and when nothing
matched, `remove_if` returns `end()`, so `erase(end())` violates
`std::list::erase`'s precondition: undefined behaviour, modelled as `none`. -/
def disconnectObj (o : Option ObjId) (ns : NotifierState) : Option NotifierState :=
  let ids := ns.listeners.map Prod.fst
  let vals := ns.listeners.map Prod.snd
  let kept := vals.filter (fun l => !(l.object == o))
  let shuffled := kept ++ vals.drop kept.length
  if kept.length < ids.length then
    some ⟨(ids.zip shuffled).eraseIdx kept.length, ns.nextNode⟩
  else none

/-- `notifier::disconnect_all`: `m_listeners.clear()`. No other state is
touched: in particular no object's `m_callbacks` list is visited. -/
def disconnectAll (nid : NotifierId) (w : World) : World :=
  ⟨fun m => if m = nid then ⟨[], (w.notifiers m).nextNode⟩ else w.notifiers m,
   w.objects⟩

/-- `notifier::disconnect(iterator)`: `m_listeners.erase(lstnr_iter)`. The
iterator must point at a live node of this list; erasing an already-erased
node is undefined behaviour, modelled as `none`. -/
def eraseNode (nodeId : Nat) (ns : NotifierState) : Option NotifierState :=
  if ns.listeners.any (fun p => p.1 == nodeId) then
    some ⟨ns.listeners.eraseP (fun p => p.1 == nodeId), ns.nextNode⟩
  else none

/-- `connection::disconnect`: if `m_notifier` is non-null, call
`m_notifier->disconnect(m_listener)` and null out `m_notifier`; otherwise do
nothing. Nothing else happens: no `untrack` call is made. -/
def connectionDisconnect (c : Connection) (w : World) :
    Option (Connection × World) :=
  match c.notifier with
  | none => some (c, w)
  | some nid =>
    match eraseNode c.listener (w.notifiers nid) with
    | none => none
    | some ns =>
      some (⟨none, c.listener⟩,
            ⟨fun m => if m = nid then ns else w.notifiers m, w.objects⟩)

/-- The loop of `notifier::~notifier`: for each remaining listener in sequence
order, if it `is_trackable()`, call `untrack(this)` on its target object.
(A trackable listener with a null object would be undefined behaviour in the
source, unreachable through `listener::make`; modelled as no untrack.) -/
def notifierDtorLoop (nid : NotifierId) (objs : ObjId → List TrackCallback) :
    List (Nat × Listener) → ObjId → List TrackCallback
  | [] => objs
  | p :: rest =>
    notifierDtorLoop nid
      (match p.2.trackable, p.2.object with
       | true, some oid => fun o => if o = oid then untrack nid (objs o) else objs o
       | _, _ => objs)
      rest

/-- `notifier::~notifier`: run the untrack loop over the remaining listeners;
the listener storage then perishes with the notifier object (the destroyed
notifier's entry in the heap map is stale afterwards). -/
def notifierDtor (nid : NotifierId) (w : World) : World :=
  ⟨w.notifiers, notifierDtorLoop nid w.objects (w.notifiers nid).listeners⟩

/-- The loop of `trackable::~trackable`: run each registered callback in
order. Every callback in this code base is `disconnect_trackable`, i.e.
`notifier->disconnect(obj)` with the stored object address — which may hit the
undefined `erase(end())` inside `disconnectObj` (`none`). -/
def trackableDtorLoop (w : World) : List TrackCallback → Option World
  | [] => some w
  | cb :: rest =>
    match disconnectObj (some cb.object) (w.notifiers cb.notifier) with
    | none => none
    | some ns =>
      trackableDtorLoop
        ⟨fun m => if m = cb.notifier then ns else w.notifiers m, w.objects⟩ rest

/-- `trackable::~trackable`: fire every registered callback, then the
registration list perishes with the object (its entry is cleared). -/
def trackableDtor (oid : ObjId) (w : World) : Option World :=
  (trackableDtorLoop w (w.objects oid)).map
    (fun w2 => ⟨w2.notifiers, fun o => if o = oid then [] else w2.objects o⟩)

/-- `notifier(const this_type&) = default`: the copy (living at the fresh
address `dst`) gets a copy of `m_listeners`; no `track` call is made on any
target object. -/
def copyNotifier (src dst : NotifierId) (w : World) : World :=
  ⟨fun m => if m = dst then w.notifiers src else w.notifiers m, w.objects⟩

/-- The empty heap: every notifier freshly constructed, every object with no
registrations. -/
def w0 : World := ⟨fun _ => ⟨[], 0⟩, fun _ => []⟩

/-- A method listener bound to trackable object 1. -/
def lA : Listener := ⟨10, some 1, true⟩

/-- A free-function listener (no target object, not trackable). -/
def lB : Listener := ⟨11, none, false⟩

/-- A second method listener bound to trackable object 1. -/
def lA2 : Listener := ⟨12, some 1, true⟩

/-- A free-function listener whose invocation throws (stub 99). -/
def lErr : Listener := ⟨99, none, false⟩

/-- Invocation behaviour for the error-propagation scenario: the listener with
stub 99 throws the error value 1, every other listener returns normally. -/
def runW : Listener → Nat → Except Nat Unit :=
  fun l _ => if l.stub == 99 then Except.error 1 else Except.ok ()

/-- The heap after connecting the single trackable listener `lA` to
notifier 0: notifier 0 holds node `(0, lA)` and object 1 holds the
registration `⟨0, 1⟩`. -/
def wConn : World := (World.connect w0 0 lA).1

/-- The connection handle issued by that connect. -/
def cConn : Connection := (World.connect w0 0 lA).2

/-- Helper: `untrack` is idempotent (filtering by the same predicate twice). -/
theorem untrack_idem (nid : NotifierId) (cbs : List TrackCallback) :
    untrack nid (untrack nid cbs) = untrack nid cbs := by
  simp [untrack, List.filter_filter]

/-- Helper: `connect` prepends the listener (with a fresh node id) to the
notifier's sequence. -/
theorem connect_listeners (w : World) (nid : NotifierId) (l : Listener) :
    ((World.connect w nid l).1.notifiers nid).listeners =
      ((w.notifiers nid).nextNode, l) :: (w.notifiers nid).listeners := by
  simp [World.connect]

/-- Helper: a run of connects leaves the listener values in reverse connection
order in front of whatever was there before. -/
theorem connectAll_vals (nid : NotifierId) (ls : List Listener) :
    ∀ w : World,
      ((connectAll nid ls w).notifiers nid).listeners.map Prod.snd =
        ls.reverse ++ (w.notifiers nid).listeners.map Prod.snd := by
  induction ls with
  | nil => intro w; simp [connectAll]
  | cons l ls ih =>
    intro w
    have hstep : connectAll nid (l :: ls) w = connectAll nid ls (World.connect w nid l).1 := rfl
    rw [hstep, ih, connect_listeners]
    simp

/-- Helper: pointwise description of the destructor loop of `notifier`. An
object's registrations end up filtered by `untrack` exactly when some listener
of the sequence is trackable and bound to it. -/
theorem notifierDtorLoop_apply (nid : NotifierId) (ls : List (Nat × Listener)) :
    ∀ (objs : ObjId → List TrackCallback) (oid : ObjId),
      notifierDtorLoop nid objs ls oid =
        if ls.any (fun p => p.2.trackable && (p.2.object == some oid)) then
          untrack nid (objs oid)
        else objs oid := by
  induction ls with
  | nil => intro objs oid; simp [notifierDtorLoop]
  | cons p rest ih =>
    intro objs oid
    cases htr : p.2.trackable with
    | false =>
      simp only [notifierDtorLoop, htr]
      rw [ih]
      simp only [List.any_cons, htr, Bool.false_and, Bool.false_or]
    | true =>
      cases hobj : p.2.object with
      | none =>
        simp only [notifierDtorLoop, htr, hobj]
        rw [ih]
        have hne : ((p.2.object == some oid) : Bool) = false := by simp [hobj]
        simp only [List.any_cons, htr, hne, Bool.true_and, Bool.false_or]
      | some oid2 =>
        simp only [notifierDtorLoop, htr, hobj]
        rw [ih]
        by_cases hoo : oid = oid2
        · subst hoo
          simp only [List.any_cons, htr, hobj, beq_self_eq_true, Bool.and_self,
            Bool.true_or, if_pos, if_true]
          split
          · simp [untrack_idem]
          · simp
        · have hne : ((p.2.object == some oid) : Bool) = false := by
            simp [hobj]
            exact fun h => (hoo h.symm).elim
          simp only [List.any_cons, htr, hne, Bool.and_false, Bool.true_and,
            Bool.false_or]
          have : (fun o => if o = oid2 then untrack nid (objs o) else objs o) oid = objs oid := by
            simp [hoo]
          split <;> simp [this]

/-- Helper: the trackable destructor loop leaves every notifier untouched that
none of the fired callbacks refers to, and touches no object's registrations. -/
theorem trackableDtorLoop_frame (m : NotifierId) (cbs : List TrackCallback) :
    ∀ (w w2 : World), (∀ cb ∈ cbs, cb.notifier ≠ m) →
      trackableDtorLoop w cbs = some w2 →
      w2.notifiers m = w.notifiers m ∧ w2.objects = w.objects := by
  induction cbs with
  | nil =>
    intro w w2 _ hrun
    simp only [trackableDtorLoop, Option.some_inj] at hrun
    subst hrun
    exact ⟨rfl, rfl⟩
  | cons cb rest ih =>
    intro w w2 h hrun
    simp only [trackableDtorLoop] at hrun
    cases hd : disconnectObj (some cb.object) (w.notifiers cb.notifier) with
    | none => rw [hd] at hrun; cases hrun
    | some ns =>
      rw [hd] at hrun
      have hrest := ih _ w2 (fun c hc => h c (List.mem_cons_of_mem _ hc)) hrun
      refine ⟨?_, hrest.2⟩
      rw [hrest.1]
      have hne : m ≠ cb.notifier := fun he => h cb (List.mem_cons_self _ _) he.symm
      simp [hne]

/-- Helper: behaviour of the broadcast loop on a sequence that succeeds up to
a listener whose invocation throws: the loop invokes the leading listeners and
the failing one, propagates the error, and never reaches the tail. -/
theorem broadcastRun_append_error {A E : Type} (run : Listener → A → Except E Unit)
    (args : A) (post : List (Nat × Listener)) (f : Nat × Listener) (e : E)
    (hf : run f.2 args = Except.error e) :
    ∀ pre : List (Nat × Listener), (∀ p ∈ pre, run p.2 args = Except.ok ()) →
      broadcastRun run args (pre ++ f :: post) = (pre.map Prod.snd ++ [f.2], some e) := by
  intro pre
  induction pre with
  | nil =>
    intro _
    simp [broadcastRun, hf]
  | cons p ps ih =>
    intro hpre
    have hp : run p.2 args = Except.ok () := hpre p (List.mem_cons_self _ _)
    have hrest := ih (fun q hq => hpre q (List.mem_cons_of_mem _ hq))
    simp only [List.cons_append, broadcastRun, hp]
    simp [hrest]

/-- C1 (code bug): connect, front-to-back after three connects, the sequence
of notifier 0 is `[lA2, lB, lA]` with `lA` and `lA2` bound to object 1. The
claim — and `disconnect`'s own doc comment, "Any and all listeners associated
with the object will be disconnected" — says disconnect-by-identity with
object 1 removes both bound listeners, leaving 1 listener and no listener
bound to object 1. The code's `erase(remove_if(...))` uses the single-iterator
`erase` overload, so exactly one node is erased: 2 listeners survive, one of
them still bound to object 1 (so a later broadcast still invokes a listener
bound to the destroyed/disconnected object). -/
theorem disconnectObj_misses_listener :
    (disconnectObj (some 1) ((connectAll 0 [lA, lB, lA2] w0).notifiers 0)).map
        (fun ns => (ns.listeners.length,
                    ns.listeners.countP (fun p => p.2.object == some 1))) =
      some (2, 1) := by
  decide

/-- C2: after any run of connects on a notifier that starts with an empty
sequence and with no intervening disconnects, a broadcast invokes each
connected listener exactly once, each with exactly the broadcast arguments,
most recently connected first (reverse connection order). -/
theorem broadcast_after_connects {A : Type} (nid : NotifierId) (ls : List Listener)
    (w : World) (args : A) (h : (w.notifiers nid).listeners = []) :
    broadcast args ((connectAll nid ls w).notifiers nid) =
      ls.reverse.map (fun l => (l, args)) := by
  have hvals := connectAll_vals nid ls w
  rw [h] at hvals
  simp only [List.map_nil, List.append_nil] at hvals
  calc broadcast args ((connectAll nid ls w).notifiers nid)
      = (((connectAll nid ls w).notifiers nid).listeners.map Prod.snd).map
          (fun l => (l, args)) := by
        simp [broadcast, List.map_map]
    _ = ls.reverse.map (fun l => (l, args)) := by rw [hvals]

/-- Witness for C2: connecting `lA` then `lB` to fresh notifier 0 and
broadcasting the argument 7 invokes `lB` first, then `lA`, each with 7. -/
theorem broadcast_after_connects_witness :
    broadcast (7 : Nat) ((connectAll 0 [lA, lB] w0).notifiers 0) =
      [(lB, 7), (lA, 7)] := by
  rw [broadcast_after_connects 0 [lA, lB] w0 (7 : Nat) rfl]
  decide

/-- C3 counterexample: connect the trackable listener `lA` (bound to object 1)
to fresh notifier 0 and disconnect it through the returned connection. The
erased element was the last (only) listener bound to object 1 — the result's
listener list is `[]` — yet the `all` component is `false`: object 1 still
holds a registration whose notifier identity is 0. The claim, which says the
notifier calls `untrack(self)` on the target object (removing the object's
registration for this notifier), predicts `some ([], true)`; the run is
deterministic, so this equality refutes it: `connection::disconnect` performs
no untrack. -/
theorem connection_disconnect_counterexample :
    (connectionDisconnect cConn wConn).map
        (fun r => ((r.2.notifiers 0).listeners,
                   (r.2.objects 1).all (fun cb => cb.notifier != 0))) =
      some ([], false) := by
  decide

/-- C3 (amended): the first call to `disconnect` on a Connection (its back
pointer set, its node still live) removes exactly the listener element it was
issued for — the node with its id — spends the connection, leaves every other
notifier untouched, and makes no `untrack` call: every object's registration
list, the target object's included, is left unchanged. -/
theorem connectionDisconnect_removes_exactly (c : Connection) (w : World)
    (nid : NotifierId) (hn : c.notifier = some nid)
    (hmem : (w.notifiers nid).listeners.any (fun p => p.1 == c.listener) = true) :
    connectionDisconnect c w =
      some (⟨none, c.listener⟩,
        ⟨fun m => if m = nid then
            ⟨(w.notifiers nid).listeners.eraseP (fun p => p.1 == c.listener),
             (w.notifiers nid).nextNode⟩
          else w.notifiers m,
         w.objects⟩) := by
  simp [connectionDisconnect, hn, eraseNode, hmem]

/-- Witness for C3 (amended): the first disconnect of the connection issued
for `lA` on notifier 0 erases exactly node 0 and leaves the registrations of
every object unchanged. -/
theorem connectionDisconnect_removes_exactly_witness :
    connectionDisconnect cConn wConn =
      some (⟨none, cConn.listener⟩,
        ⟨fun m => if m = 0 then
            ⟨(wConn.notifiers 0).listeners.eraseP (fun p => p.1 == cConn.listener),
             (wConn.notifiers 0).nextNode⟩
          else wConn.notifiers m,
         wConn.objects⟩) :=
  connectionDisconnect_removes_exactly cConn wConn 0 rfl (by decide)

/-- C4: when a notifier is destroyed, its destructor calls `untrack(this)` on
the target object of every remaining trackable listener, so any object that
still has a trackable listener in the sequence retains no registration whose
notifier identity is the destroyed notifier (`untrack` removes all of them). -/
theorem notifierDtor_untracks (w : World) (nid : NotifierId) (oid : ObjId)
    (h : ∃ p ∈ (w.notifiers nid).listeners,
          p.2.trackable = true ∧ p.2.object = some oid) :
    ((notifierDtor nid w).objects oid).all (fun cb => cb.notifier != nid) = true := by
  have hany : ((w.notifiers nid).listeners.any
      (fun p => p.2.trackable && (p.2.object == some oid))) = true := by
    obtain ⟨p, hp, h1, h2⟩ := h
    exact List.any_eq_true.2 ⟨p, hp, by simp [h1, h2]⟩
  show (notifierDtorLoop nid w.objects (w.notifiers nid).listeners oid).all
      (fun cb => cb.notifier != nid) = true
  rw [notifierDtorLoop_apply, if_pos hany]
  exact List.all_eq_true.2 (fun cb hcb => (List.mem_filter.1 hcb).2)

/-- Witness for C4: destroying notifier 0 while the trackable listener `lA`
(bound to object 1) is still connected leaves object 1 with no registration
for notifier 0. -/
theorem notifierDtor_untracks_witness :
    ((notifierDtor 0 wConn).objects 1).all (fun cb => cb.notifier != 0) = true :=
  notifierDtor_untracks wConn 0 1 ⟨(0, lA), by decide, rfl, rfl⟩

/-- C5: `connection::disconnect` is idempotent. Whatever a first call
produces, running `disconnect` again on the resulting (spent) connection
returns the very same state: the notifier's listener sequence, and everything
else, is unchanged. (When the first call itself is the undefined
`erase` of a dead node, there is no resulting state and both sides are
`none`.) -/
theorem connectionDisconnect_idem (c : Connection) (w : World) :
    (connectionDisconnect c w).bind (fun r => connectionDisconnect r.1 r.2) =
      connectionDisconnect c w := by
  cases hc : c.notifier with
  | none => simp [connectionDisconnect, hc]
  | some nid =>
    cases he : eraseNode c.listener (w.notifiers nid) with
    | none => simp [connectionDisconnect, hc, he]
    | some ns => simp [connectionDisconnect, hc, he]

/-- C6 (code bug): disconnect-by-identity on a notifier in which no listener
has the given target identity (here: one free-function listener, identity 1
sought). `std::remove_if` finds no match and returns `end()`; the code then
calls `m_listeners.erase(end())`, which violates `std::list::erase`'s
precondition — undefined behaviour (`none`), not the safe no-op the claim
describes. -/
theorem disconnectObj_ub_when_no_match :
    disconnectObj (some 1) (((World.connect w0 0 lB).1).notifiers 0) = none := by
  decide

/-- C7: if some listener's invocation throws during a broadcast, the error
propagates synchronously out of the broadcast loop: the trace consists of the
listeners before the failing one plus the failing one itself, the result
carries the error, and no listener occurring later in the sequence is
invoked. -/
theorem notifyRun_error_aborts {A E : Type} (run : Listener → A → Except E Unit)
    (args : A) (ns : NotifierState) (pre post : List (Nat × Listener))
    (f : Nat × Listener) (e : E)
    (hsplit : ns.listeners = pre ++ f :: post)
    (hpre : ∀ p ∈ pre, run p.2 args = Except.ok ())
    (hf : run f.2 args = Except.error e) :
    notifyRun run args ns = (pre.map Prod.snd ++ [f.2], some e) := by
  rw [notifyRun, hsplit]
  exact broadcastRun_append_error run args post f e hf pre hpre

/-- Witness for C7: broadcasting 7 on a notifier whose sequence is
`[lB, lErr, lA]` (front to back), where `lErr` throws the error 1, invokes
`lB` and `lErr` only and propagates the error; `lA` is never invoked. -/
theorem notifyRun_error_aborts_witness :
    notifyRun runW (7 : Nat) ((connectAll 0 [lA, lErr, lB] w0).notifiers 0) =
      ([lB, lErr], some 1) := by
  have h := notifyRun_error_aborts runW (7 : Nat)
      ((connectAll 0 [lA, lErr, lB] w0).notifiers 0)
      [(2, lB)] [(0, lA)] (1, lErr) 1 rfl
      (by intro p hp; rw [List.mem_singleton] at hp; subst hp; rfl) rfl
  simpa using h

/-- C8: `disconnect_all` empties the notifier's listener sequence and performs
no untracking whatsoever: the registration list of every object is left
exactly as it was (so every trackable object referenced by the cleared
listeners still holds its registration for this notifier afterwards). -/
theorem disconnectAll_no_untrack (nid : NotifierId) (w : World) :
    ((disconnectAll nid w).notifiers nid).listeners = [] ∧
    (disconnectAll nid w).objects = w.objects :=
  ⟨by simp [disconnectAll], rfl⟩

/-- C9: copying a notifier (default copy constructor / assignment) copies the
listener sequence and performs no `track` call: every object's registration
list is unchanged, so no trackable object holds a registration for the copy
(which lives at a fresh address `dst`). Consequently, destroying a trackable
object — which fires disconnect callbacks only at the notifiers registered in
its own callback list — leaves the copy's listener sequence untouched. -/
theorem copyNotifier_no_track (src dst : NotifierId) (oid : ObjId) (w : World)
    (hfresh : ∀ cb ∈ w.objects oid, cb.notifier ≠ dst) :
    (copyNotifier src dst w).objects = w.objects ∧
    ((copyNotifier src dst w).notifiers dst).listeners =
      (w.notifiers src).listeners ∧
    (∀ w2 : World, trackableDtor oid (copyNotifier src dst w) = some w2 →
      (w2.notifiers dst).listeners = (w.notifiers src).listeners) := by
  refine ⟨rfl, by simp [copyNotifier], ?_⟩
  intro w2 h
  rw [trackableDtor] at h
  cases hl : trackableDtorLoop (copyNotifier src dst w)
      ((copyNotifier src dst w).objects oid) with
  | none => rw [hl] at h; cases h
  | some w3 =>
    rw [hl] at h
    simp only [Option.map_some', Option.some_inj] at h
    have hframe := trackableDtorLoop_frame dst ((copyNotifier src dst w).objects oid)
        (copyNotifier src dst w) w3 hfresh hl
    rw [← h]
    show (w3.notifiers dst).listeners = (w.notifiers src).listeners
    rw [hframe.1]
    simp [copyNotifier]

/-- Witness for C9: copy notifier 0 (holding the listener `lA` bound to
object 1) to the fresh identity 2, then destroy object 1; the copy's listener
sequence is still the one copied from notifier 0. -/
theorem copyNotifier_no_track_witness :
    (((trackableDtor 1 (copyNotifier 0 2 wConn)).getD w0).notifiers 2).listeners =
      (wConn.notifiers 0).listeners :=
  (copyNotifier_no_track 0 2 1 wConn (by decide)).2.2
    ((trackableDtor 1 (copyNotifier 0 2 wConn)).getD w0) rfl

/-- C10: `trackable::untrack` with a notifier identity that has no
registration in the object's callback list is a no-op leaving the list
unchanged, and untracking the same identity twice equals untracking it once
(idempotence). -/
theorem untrack_noop_idem (nid : NotifierId) (cbs : List TrackCallback) :
    ((∀ cb ∈ cbs, cb.notifier ≠ nid) → untrack nid cbs = cbs) ∧
    untrack nid (untrack nid cbs) = untrack nid cbs := by
  constructor
  · intro h
    exact List.filter_eq_self.2 (fun cb hcb => by simpa using h cb hcb)
  · exact untrack_idem nid cbs

/-- Witness for C10: object callbacks `[⟨1, 5⟩]` hold no registration for
notifier 0, and untracking 0 leaves them unchanged. -/
theorem untrack_noop_idem_witness :
    untrack 0 [(⟨1, 5⟩ : TrackCallback)] = [⟨1, 5⟩] :=
  (untrack_noop_idem 0 [⟨1, 5⟩]).1 (by decide)

end NL
